import Mathlib

/-!
Shallow embedding of the showbook-API backend (src/backend/main.py,
src/backend/models.py, src/backend/database.py).

The MongoDB collections of database.py are modelled as Lean lists inside a
single `AppState`; MongoDB ObjectIds are modelled as natural numbers drawn
from a per-state counter (`nextId`), and `str(ObjectId)` as `toString` of
that number.  `datetime` values are modelled as integer timestamps (seconds).
Python `float` ratings are modelled as rationals: every claim about the
search filter concerns which comparison operator is applied, not float
rounding.  Each FastAPI handler of main.py becomes a Lean function from the
request data (and, for authenticated routes, the resolved current user) to a
response value paired with the successor state; a raised `HTTPException`
becomes an `Except.error` carrying status, detail and headers.
-/

/-- An HTTP error response as raised by FastAPI's `HTTPException`:
status code, detail string, and extra headers. -/
structure HTTPError where
  status : Nat
  detail : String
  headers : List (String × String)
deriving DecidableEq, Repr

/-- Model of `models.UserCreate` (models.py lines 5-10): signup request body.
`is_admin : Optional[bool] = False` — an omitted flag is the default
`False`, so the field is modelled as a plain `Bool`. -/
structure UserCreate where
  username : String
  email : String
  password : String
  phone : String
  is_admin : Bool
deriving DecidableEq, Repr

/-- A user document as stored in `users_collection` by `create_user`
(main.py lines 79-85): the request fields with the password replaced by its
hash, plus the MongoDB-assigned `_id`. -/
structure UserDoc where
  id : Nat
  username : String
  email : String
  password : String
  phone : String
  is_admin : Bool
deriving DecidableEq, Repr

/-- Model of `models.UserResponse` (models.py lines 30-34): signup response, the
user's fields without the password. -/
structure UserResponse where
  username : String
  email : String
  phone : String
  is_admin : Bool
deriving DecidableEq, Repr

/-- Model of `models.CinemaHallCreate` (models.py lines 36-39). -/
structure CinemaHallCreate where
  name : String
  address : String
  phone : String
deriving DecidableEq, Repr

/-- A cinema-hall document stored in `cinema_halls_collection`. -/
structure CinemaHallDoc where
  id : Nat
  name : String
  address : String
  phone : String
deriving DecidableEq, Repr

/-- Model of `models.ScreenCreate` (models.py lines 41-44). -/
structure ScreenCreate where
  hall_id : String
  name : String
  total_seats : Int
deriving DecidableEq, Repr

/-- A screen document stored in `screens_collection`. -/
structure ScreenDoc where
  id : Nat
  hall_id : String
  name : String
  total_seats : Int
deriving DecidableEq, Repr

/-- Model of `models.ShowCreate` (models.py lines 46-49); `show_time : datetime`
modelled as an integer timestamp. -/
structure ShowCreate where
  movie_id : String
  screen_id : String
  show_time : Int
deriving DecidableEq, Repr

/-- A show document stored in `shows_collection`. -/
structure ShowDoc where
  id : Nat
  movie_id : String
  screen_id : String
  show_time : Int
deriving DecidableEq, Repr

/-- Model of `models.MovieCreate` (models.py lines 16-21); `rating : float` modelled
as `ℚ`, `release_date : datetime` as an integer timestamp. -/
structure MovieCreate where
  title : String
  genre : String
  rating : ℚ
  duration : Int
  release_date : Int
deriving DecidableEq, Repr

/-- A movie document stored in `movies_collection`. -/
structure MovieDoc where
  id : Nat
  title : String
  genre : String
  rating : ℚ
  duration : Int
  release_date : Int
deriving DecidableEq, Repr

/-- Model of `models.MovieUpdate` (models.py lines 23-28): every field optional;
`dict(exclude_unset=True)` keeps only the supplied ones. -/
structure MovieUpdate where
  title : Option String
  genre : Option String
  rating : Option ℚ
  duration : Option Int
  release_date : Option Int
deriving DecidableEq, Repr

/-- Model of `models.BookingCreate` (models.py lines 51-54): booking request body.
Note it carries a `user_id` field even though `create_booking` overwrites
it from the authenticated user. -/
structure BookingCreate where
  show_id : String
  user_id : String
  seat_number : Int
deriving DecidableEq, Repr

/-- A booking document stored in `bookings_collection` by `create_booking`
(main.py lines 196-211): the body with `user_id` replaced by
`str(current_user['_id'])`, plus the MongoDB-assigned `_id`. -/
structure BookingDoc where
  id : Nat
  show_id : String
  user_id : String
  seat_number : Int
deriving DecidableEq, Repr

/-- The six MongoDB collections of database.py (lines 11-16), modelled as
lists, together with the counter supplying fresh `_id`s. -/
structure AppState where
  users : List UserDoc
  movies : List MovieDoc
  cinema_halls : List CinemaHallDoc
  screens : List ScreenDoc
  shows : List ShowDoc
  bookings : List BookingDoc
  nextId : Nat
deriving DecidableEq, Repr

/-- The empty database at process start. -/
def initialState : AppState :=
  { users := [], movies := [], cinema_halls := [], screens := [],
    shows := [], bookings := [], nextId := 0 }

/-- The filter of `create_booking`'s `find_one_and_update` call (main.py
line 202): a stored booking matches the composite key
`{"show_id": ..., "seat_number": ...}`. -/
def matchesSeat (show_id : String) (seat_number : Int) (r : BookingDoc) : Bool :=
  r.show_id == show_id && r.seat_number == seat_number

/-- Model of `bookings_collection.find_one_and_update(filter, {"$setOnInsert": doc},
upsert=True, return_document=False)` (main.py lines 201-206) as executed by
one call running alone: if a document matching the filter exists,
`$setOnInsert` applies nothing, the store is unchanged, and the
pre-existing document is returned; otherwise the new document is inserted
(with a fresh `_id`) and `None` is returned (`return_document=False`
returns the pre-image).  This is the call's sequential denotation only:
database.py creates no index, in particular no unique index on
`(show_id, seat_number)`, and per MongoDB's documented upsert semantics
the match phase and the insert phase are then not indivisible across
concurrent operations — that finer granularity is modelled separately by
`UpsertStep` below. -/
def bookings_find_one_and_update (st : AppState) (show_id : String)
    (seat_number : Int) (doc_user_id : String) :
    Option BookingDoc × AppState :=
  match st.bookings.find? (matchesSeat show_id seat_number) with
  | some r => (some r, st)
  | none =>
      let newDoc : BookingDoc :=
        { id := st.nextId, show_id := show_id, user_id := doc_user_id,
          seat_number := seat_number }
      (none, { st with bookings := st.bookings ++ [newDoc],
                       nextId := st.nextId + 1 })

/-- The 400 error of `create_booking` (main.py line 209). -/
def seatTakenError : HTTPError :=
  { status := 400, detail := "Seat already booked", headers := [] }

/-- Model of `create_booking` (main.py lines 196-211): overwrite the body's
`user_id` with `str(current_user['_id'])`, perform the upsert; a
non-`None` result means the seat was already booked and raises 400,
otherwise the booking succeeded. -/
def create_booking (st : AppState) (booking : BookingCreate)
    (current_user : UserDoc) : Except HTTPError String × AppState :=
  let user_id := toString current_user.id
  match bookings_find_one_and_update st booking.show_id booking.seat_number
      user_id with
  | (some _, st2) => (.error seatTakenError, st2)
  | (none, st2) => (.ok "Booking successful", st2)

/-- Number of stored bookings for a given `(show_id, seat_number)` pair. -/
def seatCount (st : AppState) (show_id : String) (seat_number : Int) : Nat :=
  st.bookings.countP (matchesSeat show_id seat_number)

/-- Model of `get_password_hash` (main.py lines 29-30).  The bcrypt hashing of the
passlib library is external CPU-bound code; it is modelled as a
deterministic tagging function.  No claim below relies on one-wayness or
salting, only on which string ends up stored. -/
def get_password_hash (password : String) : String :=
  "bcrypt$" ++ password

/-- Model of `verify_password` (main.py lines 26-27): checks a plaintext password
against a stored hash (modelled as agreement with `get_password_hash`). -/
def verify_password (plain_password hashed_password : String) : Bool :=
  get_password_hash plain_password == hashed_password

/-- A bearer token as seen by the jose JWT library: either a string that is
not a structurally valid JWT, or a signed claim set.  Only the `"sub"`
claim is ever read by main.py, so the payload is modelled as its optional
`"sub"` entry plus the `"exp"` timestamp that `create_access_token` always
sets; `key` and `alg` record what the token was signed with. -/
inductive BearerToken where
  | malformed (raw : String)
  | signed (sub : Option String) (exp : Int) (key : String) (alg : String)
deriving DecidableEq, Repr

/-- Result of `jwt.decode`: the payload's `"sub"` claim, or a `JWTError`
(raised alike for malformed tokens, wrong signature key, wrong algorithm,
and expiry — jose's `ExpiredSignatureError` is a `JWTError`). -/
inductive DecodeResult where
  | payload (sub : Option String)
  | jwtError
deriving DecidableEq, Repr

/-- Model of `jwt.decode(token, key, algorithms=[alg])` at time `now` (main.py line
63): signature/algorithm mismatch or structural invalidity raise
`JWTError`; jose treats the token as expired exactly when `exp < now`
(zero leeway); otherwise the payload is returned. -/
def jwtDecode (token : BearerToken) (key alg : String) (now : Int) :
    DecodeResult :=
  match token with
  | .malformed _ => .jwtError
  | .signed sub exp k a =>
      if k == key && a == alg then
        if exp < now then .jwtError else .payload sub
      else .jwtError

/-- Model of `create_access_token(data, expires_delta)` (main.py lines 32-40) at
time `now`, with the process-wide `SECRET_KEY`/`ALGORITHM` passed
explicitly.  `data` is always `{"sub": email}` at the call site and is
modelled as the optional `"sub"` claim.  Python's `if expires_delta:` is
falsy both for `None` and for a zero timedelta, in which case the
15-minute default applies; deltas are in seconds. -/
def create_access_token (data : Option String) (expires_delta : Option Int)
    (now : Int) (secretKey alg : String) : BearerToken :=
  let expire : Int :=
    match expires_delta with
    | some d => if d == 0 then now + 15 * 60 else now + d
    | none => now + 15 * 60
  .signed data expire secretKey alg

/-- Model of `get_user(email)` (main.py lines 42-46): `find_one` on the users
collection by email, i.e. the first stored user with that email. -/
def get_user (st : AppState) (email : String) : Option UserDoc :=
  st.users.find? (fun u => u.email == email)

/-- Model of `authenticate_user` (main.py lines 48-54): look the user up by email
and verify the password; `False` (no user) is modelled as `none`. -/
def authenticate_user (st : AppState) (email password : String) :
    Option UserDoc :=
  match get_user st email with
  | none => none
  | some user =>
      if verify_password password user.password then some user else none

/-- The single `credentials_exception` of `get_current_user` (main.py
lines 57-61), raised for every in-handler validation failure. -/
def credentialsError : HTTPError :=
  { status := 401, detail := "Could not validate credentials",
    headers := [("WWW-Authenticate", "Bearer")] }

/-- Model of `get_current_user` (main.py lines 56-72): decode the token; a
`JWTError` (malformed, bad signature, wrong algorithm, expired), a missing
`"sub"` claim, and an email with no stored user all raise the one
`credentials_exception`. -/
def get_current_user (st : AppState) (secretKey alg : String) (now : Int)
    (token : BearerToken) : Except HTTPError UserDoc :=
  match jwtDecode token secretKey alg now with
  | .jwtError => .error credentialsError
  | .payload sub =>
      match sub with
      | none => .error credentialsError
      | some email =>
          match get_user st email with
          | none => .error credentialsError
          | some user => .ok user

/-- The rejection issued by the `OAuth2PasswordBearer` dependency declared
at main.py line 24.  This is FastAPI library code, not part of src/: when
the Authorization header is absent (or not of the bearer scheme), the
dependency rejects the request before `get_current_user` runs, with status
401, detail `"Not authenticated"`, and a `WWW-Authenticate: Bearer`
header. -/
def notAuthenticatedError : HTTPError :=
  { status := 401, detail := "Not authenticated",
    headers := [("WWW-Authenticate", "Bearer")] }

/-- The full token-resolution chain of an authenticated endpoint: the
`OAuth2PasswordBearer` extraction (a request with no bearer token is
modelled as `none` and rejected with `notAuthenticatedError`) followed by
`get_current_user` on the extracted token string. -/
def resolveRequestUser (st : AppState) (secretKey alg : String) (now : Int)
    (auth : Option BearerToken) : Except HTTPError UserDoc :=
  match auth with
  | none => .error notAuthenticatedError
  | some token => get_current_user st secretKey alg now token

/-- The 403 error of `is_admin_user` (main.py line 76). -/
def forbiddenError : HTTPError :=
  { status := 403, detail := "Not enough permissions", headers := [] }

/-- Model of `is_admin_user` (main.py lines 74-77): raise 403 unless the resolved
user's `is_admin` flag is truthy, else pass the user through unchanged. -/
def is_admin_user (user : UserDoc) : Except HTTPError UserDoc :=
  if user.is_admin then .ok user else .error forbiddenError

/-- Model of `create_user` — `POST /api/signup` (main.py lines 79-85).  The route
has no authentication dependency.  The body's fields, with the password
hashed, are inserted verbatim — including `is_admin` — with no check
against existing emails; the response is the inserted fields without the
password. -/
def create_user (st : AppState) (user : UserCreate) :
    UserResponse × AppState :=
  let user_dict : UserDoc :=
    { id := st.nextId, username := user.username, email := user.email,
      password := get_password_hash user.password, phone := user.phone,
      is_admin := user.is_admin }
  ({ username := user.username, email := user.email, phone := user.phone,
     is_admin := user.is_admin },
   { st with users := st.users ++ [user_dict], nextId := st.nextId + 1 })

/-- Model of `login_for_access_token` — `POST /token` (main.py lines 87-100) at
time `now`: authenticate by email/password; on failure a 401 with a Bearer
challenge, on success a token for the user's email with the
environment-configured expiry (minutes, modelled in seconds).  The store
is not modified. -/
def login_for_access_token (st : AppState) (username password : String)
    (now : Int) (secretKey alg : String) (expireMinutes : Int) :
    Except HTTPError BearerToken :=
  match authenticate_user st username password with
  | none =>
      .error { status := 401, detail := "Incorrect username or password",
               headers := [("WWW-Authenticate", "Bearer")] }
  | some user =>
      .ok (create_access_token (some user.email) (some (expireMinutes * 60))
        now secretKey alg)

/-- FastAPI's `dependencies=[Depends(is_admin_user)]` on a route: the
guard runs before the handler body, so a 403 returns with the store
untouched, and only an admin reaches the handler. -/
def adminGuarded {α : Type} (user : UserDoc) (st : AppState)
    (handler : AppState → α × AppState) :
    Except HTTPError α × AppState :=
  match is_admin_user user with
  | .error e => (.error e, st)
  | .ok _ =>
      let r := handler st
      (.ok r.1, r.2)

/-- Handler body of `create_cinema_hall` — `POST /api/cinemahalls`
(main.py lines 104-108): insert the hall document, echo it back. -/
def insert_cinema_hall (st : AppState) (hall : CinemaHallCreate) :
    CinemaHallCreate × AppState :=
  (hall, { st with
    cinema_halls := st.cinema_halls ++
      [{ id := st.nextId, name := hall.name, address := hall.address,
         phone := hall.phone }],
    nextId := st.nextId + 1 })

/-- Model of `POST /api/cinemahalls` with its admin-guard dependency. -/
def create_cinema_hall (st : AppState) (user : UserDoc)
    (hall : CinemaHallCreate) : Except HTTPError CinemaHallCreate × AppState :=
  adminGuarded user st (fun s => insert_cinema_hall s hall)

/-- Handler body of `create_screen` — `POST /api/screens` (main.py lines
112-116). -/
def insert_screen (st : AppState) (screen : ScreenCreate) :
    ScreenCreate × AppState :=
  (screen, { st with
    screens := st.screens ++
      [{ id := st.nextId, hall_id := screen.hall_id, name := screen.name,
         total_seats := screen.total_seats }],
    nextId := st.nextId + 1 })

/-- Model of `POST /api/screens` with its admin-guard dependency. -/
def create_screen (st : AppState) (user : UserDoc) (screen : ScreenCreate) :
    Except HTTPError ScreenCreate × AppState :=
  adminGuarded user st (fun s => insert_screen s screen)

/-- Handler body of `create_show` — `POST /api/shows` (main.py lines
120-124). -/
def insert_show (st : AppState) (sh : ShowCreate) : ShowCreate × AppState :=
  (sh, { st with
    shows := st.shows ++
      [{ id := st.nextId, movie_id := sh.movie_id,
         screen_id := sh.screen_id, show_time := sh.show_time }],
    nextId := st.nextId + 1 })

/-- Model of `POST /api/shows` with its admin-guard dependency. -/
def create_show (st : AppState) (user : UserDoc) (sh : ShowCreate) :
    Except HTTPError ShowCreate × AppState :=
  adminGuarded user st (fun s => insert_show s sh)

/-- Handler body of `create_movie` — `POST /api/movies` (main.py lines
128-132). -/
def insert_movie (st : AppState) (movie : MovieCreate) :
    MovieCreate × AppState :=
  (movie, { st with
    movies := st.movies ++
      [{ id := st.nextId, title := movie.title, genre := movie.genre,
         rating := movie.rating, duration := movie.duration,
         release_date := movie.release_date }],
    nextId := st.nextId + 1 })

/-- Model of `POST /api/movies` with its admin-guard dependency. -/
def create_movie (st : AppState) (user : UserDoc) (movie : MovieCreate) :
    Except HTTPError MovieCreate × AppState :=
  adminGuarded user st (fun s => insert_movie s movie)

/-- Model of `read_movie` — `GET /api/movies/{id}` (main.py lines 134-139):
`find_one` by `_id` (the path id parsed as an ObjectId, modelled by
comparing its decimal rendering), 404 when absent.  Pure read. -/
def read_movie (st : AppState) (id : String) : Except HTTPError MovieDoc :=
  match st.movies.find? (fun m => toString m.id == id) with
  | none => .error { status := 404, detail := "Movie not found", headers := [] }
  | some movie => .ok movie

/-- Model of `$set` of the supplied (`exclude_unset`) fields of a `MovieUpdate`
onto a stored movie document. -/
def applyMovieUpdate (upd : MovieUpdate) (m : MovieDoc) : MovieDoc :=
  { m with
    title := upd.title.getD m.title,
    genre := upd.genre.getD m.genre,
    rating := upd.rating.getD m.rating,
    duration := upd.duration.getD m.duration,
    release_date := upd.release_date.getD m.release_date }

/-- Model of `update_one` modifies only the first document matching the filter. -/
def updateFirst {α : Type} (p : α → Bool) (f : α → α) : List α → List α
  | [] => []
  | x :: xs => if p x then f x :: xs else x :: updateFirst p f xs

/-- Handler body of `update_movie` — `PUT /api/movies/{id}` (main.py lines
141-147): `update_one` by `_id` with `$set` of the supplied fields; a zero
`matched_count` raises 404. -/
def update_movie_body (st : AppState) (id : String) (upd : MovieUpdate) :
    Except HTTPError String × AppState :=
  if st.movies.any (fun m => toString m.id == id) then
    let newMovies :=
      updateFirst (fun m => toString m.id == id) (applyMovieUpdate upd)
        st.movies
    (.ok "Movie updated", { st with movies := newMovies })
  else
    (.error { status := 404, detail := "Movie not found", headers := [] }, st)

/-- Model of `PUT /api/movies/{id}` with its admin-guard dependency.  The handler
body itself may raise 404, hence the nested `Except`. -/
def update_movie (st : AppState) (user : UserDoc) (id : String)
    (upd : MovieUpdate) :
    Except HTTPError (Except HTTPError String) × AppState :=
  adminGuarded user st (fun s => update_movie_body s id upd)

/-- Handler body of `delete_movie` — `DELETE /api/movies/{id}` (main.py
lines 149-157): `delete_one` by `_id` (first match); a zero
`deleted_count` raises 404 before any show is touched; otherwise
`delete_many` removes every show whose `movie_id` equals the path id. -/
def delete_movie_body (st : AppState) (id : String) :
    Except HTTPError String × AppState :=
  if st.movies.any (fun m => toString m.id == id) then
    (.ok "Movie and related shows deleted",
     { st with
        movies := st.movies.eraseP (fun m => toString m.id == id),
        shows := st.shows.filter (fun s => !(s.movie_id == id)) })
  else
    (.error { status := 404, detail := "Movie not found", headers := [] }, st)

/-- Model of `DELETE /api/movies/{id}` with its admin-guard dependency. -/
def delete_movie (st : AppState) (user : UserDoc) (id : String) :
    Except HTTPError (Except HTTPError String) × AppState :=
  adminGuarded user st (fun s => delete_movie_body s id)

/-- The `{"$regex": title, "$options": "i"}` clause of `search_movies`
(main.py line 163).  The spec describes this as free-text substring
search; the pattern is treated as a literal, so the clause is
case-insensitive substring containment. -/
def regexICase (pattern text : String) : Bool :=
  decide (pattern.toLower.toList.IsInfix text.toLower.toList)

/-- The rating clause of `search_movies` (main.py line 167):
`{"$gte": rating} if rating >= 4 else rating` — a greater-or-equal match
when the threshold is at least 4, an exact equality match otherwise. -/
def ratingClause (rating : ℚ) (movieRating : ℚ) : Bool :=
  if 4 ≤ rating then decide (rating ≤ movieRating)
  else movieRating == rating

/-- The query built by `search_movies` (main.py lines 161-167), as a
predicate on stored movies.  Python truthiness guards each clause: an
absent or empty `title`/`genre` and an absent or zero `rating` add no
clause. -/
def movieMatchesQuery (title genre : Option String) (rating : Option ℚ)
    (m : MovieDoc) : Bool :=
  (match title with
   | none => true
   | some t => if t == "" then true else regexICase t m.title) &&
  (match genre with
   | none => true
   | some g => if g == "" then true else m.genre == g) &&
  (match rating with
   | none => true
   | some r => if r == 0 then true else ratingClause r m.rating)

/-- Model of `models.MovieSearchResponse` (models.py lines 63-69). -/
structure MovieSearchResponse where
  movie_id : String
  title : String
  genre : String
  rating : ℚ
  duration : Int
  release_date : Int
deriving DecidableEq, Repr

/-- Model of `search_movies` — `GET /api/movies` (main.py lines 159-170): filter
the movies collection by the built query, capped at 100 results
(`to_list(length=100)`).  Pure read. -/
def search_movies (st : AppState) (title genre : Option String)
    (rating : Option ℚ) : List MovieSearchResponse :=
  ((st.movies.filter (movieMatchesQuery title genre rating)).take 100).map
    (fun m =>
      { movie_id := toString m.id, title := m.title, genre := m.genre,
        rating := m.rating, duration := m.duration,
        release_date := m.release_date })

/-- Model of `models.ShowResponse` (models.py lines 56-61). -/
structure ShowResponse where
  show_id : String
  movie_id : String
  screen_id : String
  show_time : Int
  movie_title : Option String
deriving DecidableEq, Repr

/-- Model of `search_shows` — `GET /api/shows` (main.py lines 174-192): filter
shows by optional `movie_id` and by day (`show_time` within the day's
bounds, modelled as a half-open day of `86400` seconds from `day`), cap at
100, and join each show with its movie's title.  Pure read. -/
def search_shows (st : AppState) (movie_id : Option String)
    (day : Option Int) : List ShowResponse :=
  let query : ShowDoc → Bool := fun s =>
    (match movie_id with
     | none => true
     | some mid => if mid == "" then true else s.movie_id == mid) &&
    (match day with
     | none => true
     | some d => decide (d ≤ s.show_time) && decide (s.show_time < d + 86400))
  ((st.shows.filter query).take 100).map (fun s =>
    { show_id := toString s.id, movie_id := s.movie_id,
      screen_id := s.screen_id, show_time := s.show_time,
      movie_title :=
        match st.movies.find? (fun m => toString m.id == s.movie_id) with
        | none => none
        | some m => some m.title })

/-- One handler execution running to completion with the store to itself,
relating a state to its successor.  The pure reads (`read_movie`,
`search_movies`, `search_shows`) and `login_for_access_token` return no
state and appear as identity steps, so the relation covers every endpoint
of main.py.  This is a sequential semantics: handlers execute one at a
time; the finer interleaving of concurrent `create_booking` requests
inside the store is modelled by `UpsertStep`. -/
inductive Step : AppState → AppState → Prop where
  | signup (st : AppState) (u : UserCreate) :
      Step st (create_user st u).2
  | login (st : AppState) (username password : String) (now : Int)
      (secretKey alg : String) (expireMinutes : Int) : Step st st
  | cinemaHall (st : AppState) (user : UserDoc) (hall : CinemaHallCreate) :
      Step st (create_cinema_hall st user hall).2
  | screen (st : AppState) (user : UserDoc) (screen : ScreenCreate) :
      Step st (create_screen st user screen).2
  | showStep (st : AppState) (user : UserDoc) (sh : ShowCreate) :
      Step st (create_show st user sh).2
  | movieCreate (st : AppState) (user : UserDoc) (movie : MovieCreate) :
      Step st (create_movie st user movie).2
  | movieRead (st : AppState) (id : String) : Step st st
  | movieUpdate (st : AppState) (user : UserDoc) (id : String)
      (upd : MovieUpdate) : Step st (update_movie st user id upd).2
  | movieDelete (st : AppState) (user : UserDoc) (id : String) :
      Step st (delete_movie st user id).2
  | movieSearch (st : AppState) (title genre : Option String)
      (rating : Option ℚ) : Step st st
  | showSearch (st : AppState) (movie_id : Option String)
      (day : Option Int) : Step st st
  | booking (st : AppState) (b : BookingCreate) (user : UserDoc) :
      Step st (create_booking st b user).2

/-- States reachable from the empty database by handler executions. -/
inductive Reachable : AppState → Prop where
  | init : Reachable initialState
  | step {st st2 : AppState} : Reachable st → Step st st2 → Reachable st2

/-- Zero or more handler executions from a given state. -/
inductive Steps : AppState → AppState → Prop where
  | refl (st : AppState) : Steps st st
  | tail {st st2 st3 : AppState} : Steps st st2 → Step st2 st3 →
      Steps st st3


/-- Demo non-admin user for witnesses. -/
def demoUser : UserDoc :=
  { id := 0, username := "alice", email := "alice@example.com",
    password := get_password_hash "pw", phone := "123", is_admin := false }

/-- Second demo user for witnesses. -/
def demoUser2 : UserDoc :=
  { id := 1, username := "bob", email := "bob@example.com",
    password := get_password_hash "pw2", phone := "456", is_admin := false }

/-- Demo admin user for witnesses. -/
def demoAdmin : UserDoc :=
  { id := 2, username := "carol", email := "carol@example.com",
    password := get_password_hash "pw3", phone := "789", is_admin := true }

/-- Demo movie document for witnesses. -/
def demoMovie : MovieDoc :=
  { id := 7, title := "Dune", genre := "scifi", rating := 5, duration := 155,
    release_date := 0 }

/-- A signup request reused twice to exercise duplicate emails. -/
def dupSignup : UserCreate :=
  { username := "alice", email := "a@example.com", password := "pw",
    phone := "123", is_admin := false }

/-- The state reached by running signup twice with the same email. -/
def stTwoSignups : AppState :=
  (create_user (create_user initialState dupSignup).2 dupSignup).2

/-- An in-flight `create_booking` request whose match phase has already
observed no document for its `(show_id, seat_number)` pair and whose
insert phase has not yet executed: the document it is about to insert
(`user_id` already resolved to `str(current_user['_id'])`). -/
structure PendingInsert where
  show_id : String
  user_id : String
  seat_number : Int
deriving DecidableEq, Repr

/-- The bookings collection as shared by concurrently executing
`create_booking` requests: the stored documents with the fresh-id
counter, the in-flight inserts whose match phase has completed, and the
responses returned to callers so far. -/
structure BookingsServer where
  bookings : List BookingDoc
  nextId : Nat
  pendingInserts : List PendingInsert
  responses : List (Except HTTPError String)
deriving Repr

/-- Fine-grained semantics of concurrent `create_booking` requests
(main.py lines 196-211) against the collection as database.py creates it.
database.py builds no index — in particular no unique index on
`(show_id, seat_number)` — and MongoDB's documented upsert semantics for
`find_one_and_update(..., upsert=True)` without a unique index on the
queried fields is that the match phase and the insert phase are not
indivisible across concurrent operations: each of several concurrent
upserts may observe no matching document and then each insert one.
`queryTaken`: a request whose match phase finds a document gets the
pre-image back, so the handler raises the 400.  `queryFree`: a request
whose match phase finds no document becomes a pending insert.
`insertPhase`: a pending insert commits, the call returns `None`, and
the handler reports success. -/
inductive UpsertStep : BookingsServer → BookingsServer → Prop where
  | queryTaken (srv : BookingsServer) (b : BookingCreate) (u : UserDoc)
      (r : BookingDoc)
      (h : srv.bookings.find? (matchesSeat b.show_id b.seat_number) =
        some r) :
      UpsertStep srv
        { srv with responses := srv.responses ++ [.error seatTakenError] }
  | queryFree (srv : BookingsServer) (b : BookingCreate) (u : UserDoc)
      (h : srv.bookings.find? (matchesSeat b.show_id b.seat_number) =
        none) :
      UpsertStep srv
        { srv with pendingInserts := srv.pendingInserts ++
            [{ show_id := b.show_id, user_id := toString u.id,
               seat_number := b.seat_number }] }
  | insertPhase (srv : BookingsServer) (p : PendingInsert)
      (rest : List PendingInsert) (h : srv.pendingInserts = p :: rest) :
      UpsertStep srv
        { bookings := srv.bookings ++
            [{ id := srv.nextId, show_id := p.show_id,
               user_id := p.user_id, seat_number := p.seat_number }],
          nextId := srv.nextId + 1,
          pendingInserts := rest,
          responses := srv.responses ++ [.ok "Booking successful"] }

/-- Zero or more interleaved phases of concurrent requests. -/
inductive UpsertSteps : BookingsServer → BookingsServer → Prop where
  | refl (srv : BookingsServer) : UpsertSteps srv srv
  | tail {s1 s2 s3 : BookingsServer} : UpsertSteps s1 s2 →
      UpsertStep s2 s3 → UpsertSteps s1 s3

/-- The empty bookings collection with no in-flight requests. -/
def bkSrv0 : BookingsServer :=
  { bookings := [], nextId := 0, pendingInserts := [], responses := [] }

/-- The racing booking request: seat 5 of show "s1" (the body's `user_id`
is irrelevant — `create_booking` overwrites it). -/
def raceBooking : BookingCreate :=
  { show_id := "s1", user_id := "u", seat_number := 5 }

/-- The server after `demoUser`'s request observed no document for the
pair. -/
def bkSrv1 : BookingsServer :=
  { bookings := [], nextId := 0,
    pendingInserts := [{ show_id := "s1", user_id := "0",
                         seat_number := 5 }],
    responses := [] }

/-- The server after `demoUser2`'s concurrent request also observed no
document for the same pair. -/
def bkSrv2 : BookingsServer :=
  { bookings := [], nextId := 0,
    pendingInserts := [{ show_id := "s1", user_id := "0",
                         seat_number := 5 },
                       { show_id := "s1", user_id := "1",
                         seat_number := 5 }],
    responses := [] }

/-- The server after the first pending insert committed. -/
def bkSrv3 : BookingsServer :=
  { bookings := [{ id := 0, show_id := "s1", user_id := "0",
                   seat_number := 5 }],
    nextId := 1,
    pendingInserts := [{ show_id := "s1", user_id := "1",
                         seat_number := 5 }],
    responses := [.ok "Booking successful"] }

/-- The server after the second pending insert also committed: two
booking documents for the same `(show_id, seat_number)` pair, both
callers told their booking succeeded. -/
def bkSrv4 : BookingsServer :=
  { bookings := [{ id := 0, show_id := "s1", user_id := "0",
                   seat_number := 5 },
                 { id := 1, show_id := "s1", user_id := "1",
                   seat_number := 5 }],
    nextId := 2,
    pendingInserts := [],
    responses := [.ok "Booking successful", .ok "Booking successful"] }

theorem find?_none_of_seatCount_zero (st : AppState) (sid : String)
    (seat : Int) (h : seatCount st sid seat = 0) :
    st.bookings.find? (matchesSeat sid seat) = none := by
  refine List.find?_eq_none.mpr ?_
  intro x hx
  exact (List.countP_eq_zero.mp h) x hx

theorem seatCount_zero_of_find?_none (st : AppState) (sid : String)
    (seat : Int) (h : st.bookings.find? (matchesSeat sid seat) = none) :
    seatCount st sid seat = 0 :=
  List.countP_eq_zero.mpr (List.find?_eq_none.mp h)

theorem create_booking_free (st : AppState) (b : BookingCreate) (u : UserDoc)
    (h : st.bookings.find? (matchesSeat b.show_id b.seat_number) = none) :
    create_booking st b u =
      (.ok "Booking successful",
       { st with
         bookings :=
           st.bookings ++
             [{ id := st.nextId, show_id := b.show_id,
                user_id := toString u.id, seat_number := b.seat_number }],
         nextId := st.nextId + 1 }) := by
  unfold create_booking bookings_find_one_and_update
  rw [h]

theorem create_booking_taken (st : AppState) (b : BookingCreate) (u : UserDoc)
    (r : BookingDoc)
    (h : st.bookings.find? (matchesSeat b.show_id b.seat_number) = some r) :
    create_booking st b u = (.error seatTakenError, st) := by
  unfold create_booking bookings_find_one_and_update
  rw [h]

theorem create_booking_of_taken_count (st : AppState) (b : BookingCreate)
    (u : UserDoc) (h : 0 < seatCount st b.show_id b.seat_number) :
    create_booking st b u = (.error seatTakenError, st) := by
  have hex : ∃ x ∈ st.bookings, matchesSeat b.show_id b.seat_number x :=
    List.countP_pos_iff.mp h
  have hsome : (st.bookings.find? (matchesSeat b.show_id b.seat_number)).isSome :=
    List.find?_isSome.mpr hex
  obtain ⟨r, hr⟩ := Option.isSome_iff_exists.mp hsome
  exact create_booking_taken st b u r hr

theorem adminGuarded_bookings {α : Type} (user : UserDoc) (st : AppState)
    (handler : AppState → α × AppState)
    (h : ∀ s, (handler s).2.bookings = s.bookings) :
    (adminGuarded user st handler).2.bookings = st.bookings := by
  unfold adminGuarded is_admin_user
  cases hadm : user.is_admin <;> simp [hadm, h]

theorem update_movie_body_bookings (st : AppState) (id : String)
    (upd : MovieUpdate) : (update_movie_body st id upd).2.bookings =
      st.bookings := by
  unfold update_movie_body
  split <;> rfl

theorem delete_movie_body_bookings (st : AppState) (id : String) :
    (delete_movie_body st id).2.bookings = st.bookings := by
  unfold delete_movie_body
  split <;> rfl

theorem step_bookings_eq_or_booking {st st2 : AppState} (hs : Step st st2) :
    st2.bookings = st.bookings ∨
      ∃ (b : BookingCreate) (u : UserDoc), st2 = (create_booking st b u).2 := by
  cases hs with
  | signup u => exact Or.inl rfl
  | login username password now secretKey alg em => exact Or.inl rfl
  | cinemaHall user hall =>
      exact Or.inl (adminGuarded_bookings user st _ (fun s => rfl))
  | screen user scr =>
      exact Or.inl (adminGuarded_bookings user st _ (fun s => rfl))
  | showStep user sh =>
      exact Or.inl (adminGuarded_bookings user st _ (fun s => rfl))
  | movieCreate user mv =>
      exact Or.inl (adminGuarded_bookings user st _ (fun s => rfl))
  | movieRead id => exact Or.inl rfl
  | movieUpdate user id upd =>
      exact Or.inl (adminGuarded_bookings user st _
        (fun s => update_movie_body_bookings s id upd))
  | movieDelete user id =>
      exact Or.inl (adminGuarded_bookings user st _
        (fun s => delete_movie_body_bookings s id))
  | movieSearch title genre rating => exact Or.inl rfl
  | showSearch movie_id day => exact Or.inl rfl
  | booking b u => exact Or.inr ⟨b, u, rfl⟩

theorem create_booking_seatCount_le (st : AppState) (b : BookingCreate)
    (u : UserDoc) (sid : String) (seat : Int)
    (h : seatCount st sid seat ≤ 1) :
    seatCount (create_booking st b u).2 sid seat ≤ 1 := by
  cases hf : st.bookings.find? (matchesSeat b.show_id b.seat_number) with
  | some r => rw [create_booking_taken st b u r hf]; exact h
  | none =>
      rw [create_booking_free st b u hf]
      unfold seatCount at h ⊢
      rw [List.countP_append]
      by_cases hm : matchesSeat sid seat
          { id := st.nextId, show_id := b.show_id, user_id := toString u.id,
            seat_number := b.seat_number } = true
      · have hpair : b.show_id == sid && b.seat_number == seat := hm
        have hsid : b.show_id = sid := by
          have := (Bool.and_eq_true _ _).mp hpair
          exact eq_of_beq this.1
        have hseat : b.seat_number = seat := by
          have := (Bool.and_eq_true _ _).mp hpair
          exact eq_of_beq this.2
        subst hsid
        subst hseat
        have hzero : st.bookings.countP
            (matchesSeat b.show_id b.seat_number) = 0 :=
          List.countP_eq_zero.mpr (List.find?_eq_none.mp hf)
        simp [hzero, List.countP_cons, hm]
      · simp [List.countP_cons, hm]
        exact h

theorem create_booking_seatCount_mono (st : AppState) (b : BookingCreate)
    (u : UserDoc) (sid : String) (seat : Int) :
    seatCount st sid seat ≤ seatCount (create_booking st b u).2 sid seat := by
  cases hf : st.bookings.find? (matchesSeat b.show_id b.seat_number) with
  | some r => rw [create_booking_taken st b u r hf]
  | none =>
      rw [create_booking_free st b u hf]
      unfold seatCount
      rw [List.countP_append]
      exact Nat.le_add_right _ _

theorem step_seatCount_le {st st2 : AppState} (hs : Step st st2)
    (sid : String) (seat : Int) (h : seatCount st sid seat ≤ 1) :
    seatCount st2 sid seat ≤ 1 := by
  rcases step_bookings_eq_or_booking hs with heq | ⟨b, u, rfl⟩
  · unfold seatCount at h ⊢
    rw [heq]
    exact h
  · exact create_booking_seatCount_le st b u sid seat h

theorem step_seatCount_mono {st st2 : AppState} (hs : Step st st2)
    (sid : String) (seat : Int) :
    seatCount st sid seat ≤ seatCount st2 sid seat := by
  rcases step_bookings_eq_or_booking hs with heq | ⟨b, u, rfl⟩
  · unfold seatCount
    rw [heq]
  · exact create_booking_seatCount_mono st b u sid seat

theorem steps_seatCount_mono {st st2 : AppState} (hs : Steps st st2)
    (sid : String) (seat : Int) :
    seatCount st sid seat ≤ seatCount st2 sid seat := by
  induction hs with
  | refl => exact Nat.le_refl _
  | tail _ hstep ih => exact Nat.le_trans ih (step_seatCount_mono hstep sid seat)

/-- C1: the claim's at-most-one-booking invariant is the program's clear
intent (the spec calls it the sole correctness invariant and prescribes a
storage-layer uniqueness constraint), but the code does not establish it:
database.py creates no unique index on `(show_id, seat_number)`, and
without one MongoDB's match and insert phases of the upsert are not
indivisible across concurrent callers.  Concretely, from the empty
collection, two concurrent `create_booking` requests for seat 5 of show
"s1" can interleave as match/match/insert/insert: both observe the pair
absent, both insert, both callers are told "Booking successful", and the
final store holds two booking documents for the one pair — violating the
claimed invariant. -/
theorem concurrent_upsert_duplicates_seat :
    UpsertSteps bkSrv0 bkSrv4 ∧
    bkSrv4.bookings.countP (matchesSeat "s1" 5) = 2 ∧
    bkSrv4.responses =
      [.ok "Booking successful", .ok "Booking successful"] ∧
    bkSrv4.pendingInserts = [] := by
  refine ⟨?_, by decide, rfl, rfl⟩
  have h1 : UpsertStep bkSrv0 bkSrv1 :=
    UpsertStep.queryFree bkSrv0 raceBooking demoUser rfl
  have h2 : UpsertStep bkSrv1 bkSrv2 :=
    UpsertStep.queryFree bkSrv1 raceBooking demoUser2 rfl
  have h3 : UpsertStep bkSrv2 bkSrv3 :=
    UpsertStep.insertPhase bkSrv2
      { show_id := "s1", user_id := "0", seat_number := 5 }
      [{ show_id := "s1", user_id := "1", seat_number := 5 }] rfl
  have h4 : UpsertStep bkSrv3 bkSrv4 :=
    UpsertStep.insertPhase bkSrv3
      { show_id := "s1", user_id := "1", seat_number := 5 } [] rfl
  exact UpsertSteps.tail (UpsertSteps.tail (UpsertSteps.tail
    (UpsertSteps.tail (UpsertSteps.refl bkSrv0) h1) h2) h3) h4

/-- C2: for a `(show_id, seat_number)` pair with no prior booking,
`create_booking` succeeds and stores exactly one document for the pair, and
every subsequent call on the same pair — after any further sequence of
handler executions, by any user, including the original booker retrying —
fails with the `SeatTaken` 400 and leaves the store unchanged: the
Unbooked-to-Booked transition is one-way and terminal (no handler ever
deletes a booking). -/
theorem reserve_seat_one_way (st : AppState) (b : BookingCreate) (u : UserDoc)
    (hfree : seatCount st b.show_id b.seat_number = 0) :
    (create_booking st b u).1 = .ok "Booking successful" ∧
    seatCount (create_booking st b u).2 b.show_id b.seat_number = 1 ∧
    (∀ st2 : AppState, Steps (create_booking st b u).2 st2 →
      ∀ (b2 : BookingCreate) (u2 : UserDoc),
        b2.show_id = b.show_id → b2.seat_number = b.seat_number →
        create_booking st2 b2 u2 = (.error seatTakenError, st2)) := by
  have hfind : st.bookings.find? (matchesSeat b.show_id b.seat_number) = none :=
    find?_none_of_seatCount_zero st b.show_id b.seat_number hfree
  have hone : seatCount (create_booking st b u).2 b.show_id b.seat_number = 1 := by
    rw [create_booking_free st b u hfind]
    unfold seatCount at hfree ⊢
    rw [List.countP_append, hfree]
    simp [List.countP_cons, matchesSeat]
  refine ⟨by rw [create_booking_free st b u hfind], hone, ?_⟩
  intro st2 hsteps b2 u2 hsid hseat
  have hmono := steps_seatCount_mono hsteps b.show_id b.seat_number
  rw [hone] at hmono
  have hpos : 0 < seatCount st2 b2.show_id b2.seat_number := by
    rw [hsid, hseat]
    exact Nat.lt_of_lt_of_le Nat.one_pos hmono
  exact create_booking_of_taken_count st2 b2 u2 hpos

/-- Witness for C2: book seat 1 of show "s" in the empty store, then the
identical retry (different body user id, different resolved user) fails with
the 400 and changes nothing. -/
theorem reserve_seat_one_way_witness :
    create_booking (create_booking initialState
        { show_id := "s", user_id := "u", seat_number := 1 } demoUser).2
      { show_id := "s", user_id := "x", seat_number := 1 } demoUser2 =
    (.error seatTakenError,
     (create_booking initialState
        { show_id := "s", user_id := "u", seat_number := 1 } demoUser).2) :=
  (reserve_seat_one_way initialState
      { show_id := "s", user_id := "u", seat_number := 1 } demoUser rfl).2.2
    _ (Steps.refl _)
    { show_id := "s", user_id := "x", seat_number := 1 } demoUser2 rfl rfl

/-- C3: when a booking document for the pair already exists,
`create_booking` returns the store completely unchanged together with the
400 "Seat already booked" client error (status below 500, so never a server
error). -/
theorem seat_taken_store_unchanged (st : AppState) (b : BookingCreate)
    (u : UserDoc) (h : 0 < seatCount st b.show_id b.seat_number) :
    create_booking st b u = (.error seatTakenError, st) ∧
    seatTakenError.status = 400 ∧
    seatTakenError.detail = "Seat already booked" ∧
    seatTakenError.status < 500 :=
  ⟨create_booking_of_taken_count st b u h, rfl, rfl, by decide⟩

/-- Witness for C3: with seat 2 of show "w" already booked, a second call
returns the exact 400 error and the unchanged state. -/
theorem seat_taken_store_unchanged_witness :
    create_booking (create_booking initialState
        { show_id := "w", user_id := "u", seat_number := 2 } demoUser).2
      { show_id := "w", user_id := "v", seat_number := 2 } demoAdmin =
    (.error seatTakenError,
     (create_booking initialState
        { show_id := "w", user_id := "u", seat_number := 2 } demoUser).2) :=
  (seat_taken_store_unchanged
    (create_booking initialState
      { show_id := "w", user_id := "u", seat_number := 2 } demoUser).2
    { show_id := "w", user_id := "v", seat_number := 2 } demoAdmin
    (by decide)).1

/-- C4: the `user_id` stored by a successful `create_booking` is
`str(current_user['_id'])` — the identity resolved from the bearer token —
and the request body's `user_id` field has no influence: two runs differing
only in that field produce identical responses and identical successor
states. -/
theorem booking_identity_from_token (st : AppState) (b : BookingCreate)
    (u : UserDoc) :
    ((create_booking st b u).2.bookings = st.bookings ∨
      (create_booking st b u).2.bookings = st.bookings ++
        [{ id := st.nextId, show_id := b.show_id, user_id := toString u.id,
           seat_number := b.seat_number }]) ∧
    (∀ other_id : String,
      create_booking st b u =
        create_booking st { b with user_id := other_id } u) := by
  constructor
  · cases hf : st.bookings.find? (matchesSeat b.show_id b.seat_number) with
    | some r => rw [create_booking_taken st b u r hf]; exact Or.inl rfl
    | none => rw [create_booking_free st b u hf]; exact Or.inr rfl
  · intro other_id
    cases b
    rfl

theorem get_current_user_error_eq (st : AppState) (secretKey alg : String)
    (now : Int) (token : BearerToken) (e : HTTPError)
    (h : get_current_user st secretKey alg now token = .error e) :
    e = credentialsError := by
  unfold get_current_user at h
  cases hd : jwtDecode token secretKey alg now with
  | jwtError =>
      rw [hd] at h
      exact (Except.error.inj h).symm
  | payload sub =>
      rw [hd] at h
      cases sub with
      | none => exact (Except.error.inj h).symm
      | some email =>
          dsimp only at h
          cases hg : get_user st email with
          | none =>
              rw [hg] at h
              exact (Except.error.inj h).symm
          | some user =>
              rw [hg] at h
              exact absurd h (by simp)

/-- C5 counterexample: the claim asserts the 401 response is identical
across all authentication-failure causes, the missing-token case included.
In the concrete empty store, a request with no bearer token is rejected by
the `OAuth2PasswordBearer` dependency with detail "Not authenticated",
while a request carrying a malformed token is rejected by
`get_current_user` with detail "Could not validate credentials" — both 401
with the Bearer challenge, but not identical responses. -/
theorem auth_failure_responses_differ :
    resolveRequestUser initialState "key" "HS256" 0 none =
      .error notAuthenticatedError ∧
    resolveRequestUser initialState "key" "HS256" 0
      (some (BearerToken.malformed "garbage")) = .error credentialsError ∧
    notAuthenticatedError ≠ credentialsError :=
  ⟨rfl, rfl, by decide⟩

/-- C5 amended: every authentication failure — missing, malformed, expired,
signature-invalid token, or unknown subject — yields status 401 with a
`WWW-Authenticate: Bearer` challenge; and whenever a bearer token is
actually presented, the failure response is the single
`credentials_exception`, identical across all causes and revealing nothing
about why validation failed.  Only the missing-token rejection, issued by
the `OAuth2PasswordBearer` dependency before `get_current_user` runs,
differs (in its detail string only). -/
theorem auth_failure_uniform (st : AppState) (secretKey alg : String)
    (now : Int) (auth : Option BearerToken) (e : HTTPError)
    (h : resolveRequestUser st secretKey alg now auth = .error e) :
    e.status = 401 ∧ ("WWW-Authenticate", "Bearer") ∈ e.headers ∧
    (∀ token : BearerToken, auth = some token → e = credentialsError) := by
  cases auth with
  | none =>
      have he : e = notAuthenticatedError :=
        (Except.error.inj h).symm
      subst he
      refine ⟨rfl, by simp [notAuthenticatedError], ?_⟩
      intro token habs
      exact absurd habs (by simp)
  | some token =>
      have he : e = credentialsError :=
        get_current_user_error_eq st secretKey alg now token e h
      subst he
      exact ⟨rfl, by simp [credentialsError], fun _ _ => rfl⟩

/-- Witness for C5 amended: the malformed-token rejection in the empty
store is a 401 carrying the Bearer challenge and equals the single
credentials response. -/
theorem auth_failure_uniform_witness :
    credentialsError.status = 401 ∧
    ("WWW-Authenticate", "Bearer") ∈ credentialsError.headers ∧
    (∀ token : BearerToken,
      some (BearerToken.malformed "zzz") = some token →
      credentialsError = credentialsError) :=
  auth_failure_uniform initialState "key" "HS256" 0
    (some (BearerToken.malformed "zzz")) credentialsError rfl

/-- C6: every administrative mutation endpoint present in main.py (create
of cinema halls, screens and shows; create, update and delete of movies)
rejects a non-admin caller with the 403 "Not enough permissions" error and
leaves the store entirely unchanged, while `is_admin_user` passes an admin
caller through unchanged. -/
theorem admin_guard_enforced (st : AppState) (u : UserDoc)
    (hall : CinemaHallCreate) (scr : ScreenCreate) (sh : ShowCreate)
    (mv : MovieCreate) (id id2 : String) (upd : MovieUpdate) :
    (u.is_admin = false →
      create_cinema_hall st u hall = (.error forbiddenError, st) ∧
      create_screen st u scr = (.error forbiddenError, st) ∧
      create_show st u sh = (.error forbiddenError, st) ∧
      create_movie st u mv = (.error forbiddenError, st) ∧
      update_movie st u id upd = (.error forbiddenError, st) ∧
      delete_movie st u id2 = (.error forbiddenError, st) ∧
      forbiddenError.status = 403) ∧
    (u.is_admin = true → is_admin_user u = .ok u) := by
  constructor
  · intro h
    refine ⟨?_, ?_, ?_, ?_, ?_, ?_, rfl⟩ <;>
      simp [create_cinema_hall, create_screen, create_show, create_movie,
        update_movie, delete_movie, adminGuarded, is_admin_user, h]
  · intro h
    simp [is_admin_user, h]

/-- Witness for C6: the non-admin `demoUser` is rejected on the cinema-hall
endpoint with 403 and no state change, and the admin `demoAdmin` passes
the guard unchanged. -/
theorem admin_guard_enforced_witness :
    create_cinema_hall initialState demoUser
        { name := "h", address := "a", phone := "p" } =
      (.error forbiddenError, initialState) ∧
    is_admin_user demoAdmin = .ok demoAdmin :=
  ⟨((admin_guard_enforced initialState demoUser
      { name := "h", address := "a", phone := "p" }
      { hall_id := "1", name := "s", total_seats := 10 }
      { movie_id := "1", screen_id := "1", show_time := 0 }
      { title := "t", genre := "g", rating := 1, duration := 1,
        release_date := 0 }
      "1" "1"
      { title := none, genre := none, rating := none, duration := none,
        release_date := none }).1 rfl).1,
   ((admin_guard_enforced initialState demoAdmin
      { name := "h", address := "a", phone := "p" }
      { hall_id := "1", name := "s", total_seats := 10 }
      { movie_id := "1", screen_id := "1", show_time := 0 }
      { title := "t", genre := "g", rating := 1, duration := 1,
        release_date := 0 }
      "1" "1"
      { title := none, genre := none, rating := none, duration := none,
        release_date := none }).2 rfl)⟩

/-- C7 counterexample: user emails are not unique.  Running signup twice
with the same request body reaches a state — via two `Step.signup`
executions from the empty store — holding two distinct user documents that
share the email "a@example.com": the second signup does create a second
record with an existing email. -/
theorem email_uniqueness_fails :
    Reachable stTwoSignups ∧
    stTwoSignups.users.countP (fun r => r.email == "a@example.com") = 2 ∧
    stTwoSignups.users.length = 2 :=
  ⟨Reachable.step
    (Reachable.step Reachable.init (Step.signup initialState dupSignup))
    (Step.signup (create_user initialState dupSignup).2 dupSignup),
   by decide, by decide⟩

/-- C7 amended: the users store does not enforce email uniqueness —
`create_user` inserts the signup body unconditionally, never consulting
existing records, so a signup whose email equals an existing user's email
always creates a second record with that email (the per-email record count
always grows by exactly one). -/
theorem signup_inserts_unconditionally (st : AppState) (u : UserCreate) :
    (create_user st u).2.users.countP (fun r => r.email == u.email) =
      st.users.countP (fun r => r.email == u.email) + 1 := by
  unfold create_user
  simp [List.countP_append, List.countP_cons]

/-- C8: the movie-search rating filter applies a greater-or-equal
comparison exactly when the supplied threshold is at least 4, and an exact
equality comparison for any nonzero threshold below 4 (a zero threshold is
falsy in Python and adds no clause at all, which is why the claim is
restricted to nonzero thresholds). -/
theorem rating_filter_asymmetry (r : ℚ) (m : MovieDoc) :
    (4 ≤ r →
      (movieMatchesQuery none none (some r) m = true ↔ r ≤ m.rating)) ∧
    (r ≠ 0 → r < 4 →
      (movieMatchesQuery none none (some r) m = true ↔ m.rating = r)) := by
  constructor
  · intro h4
    have hr0 : (r == 0) = false := by
      simp only [beq_eq_false_iff_ne, ne_eq]
      intro h0
      rw [h0] at h4
      norm_num at h4
    simp [movieMatchesQuery, ratingClause, hr0, if_pos h4]
  · intro hne hlt
    have hr0 : (r == 0) = false := by
      simp only [beq_eq_false_iff_ne, ne_eq]
      exact hne
    have h4 : ¬ (4 : ℚ) ≤ r := not_le.mpr hlt
    simp [movieMatchesQuery, ratingClause, hr0, if_neg h4]

/-- Witness for C8: the demo movie (rating 5) matches the threshold-4
filter by the greater-or-equal branch and fails the threshold-2 filter by
the equality branch. -/
theorem rating_filter_asymmetry_witness :
    (movieMatchesQuery none none (some 4) demoMovie = true ↔
      (4 : ℚ) ≤ demoMovie.rating) ∧
    (movieMatchesQuery none none (some 2) demoMovie = true ↔
      demoMovie.rating = 2) :=
  ⟨(rating_filter_asymmetry 4 demoMovie).1 (by norm_num),
   (rating_filter_asymmetry 2 demoMovie).2 (by norm_num) (by norm_num)⟩

/-- C9 counterexample: the round-trip claim fails at ttl = 0.  Python's
`if expires_delta:` is falsy for a zero timedelta, so
`create_access_token` silently substitutes the 15-minute default: a token
issued at time 0 with ttl 0 is nominally expired at every positive time,
yet validating it at time 1 still returns the subject instead of an
expiry failure. -/
theorem token_roundtrip_fails_at_zero_ttl :
    ((0 : Int) + 0 < 1) ∧
    jwtDecode (create_access_token (some "a@b.c") (some 0) 0 "k" "HS256")
      "k" "HS256" 1 = .payload (some "a@b.c") :=
  ⟨by decide, by decide⟩

/-- C9 amended: for every subject and every nonzero ttl, validating
`issue(subject, ttl)` before the ttl has elapsed returns the subject, and
validating it after expiry raises the expiry `JWTError`, surfaced by
`get_current_user` as the 401 credentials failure.  (For ttl = 0 the falsy
zero timedelta silently falls back to the 15-minute default expiry, so the
round-trip property does not hold there.) -/
theorem token_roundtrip (subject secretKey alg : String) (st : AppState)
    (ttl now t : Int) (httl : ttl ≠ 0) :
    (t < now + ttl →
      jwtDecode
        (create_access_token (some subject) (some ttl) now secretKey alg)
        secretKey alg t = .payload (some subject)) ∧
    (now + ttl < t →
      jwtDecode
        (create_access_token (some subject) (some ttl) now secretKey alg)
        secretKey alg t = .jwtError ∧
      get_current_user st secretKey alg t
        (create_access_token (some subject) (some ttl) now secretKey alg) =
        .error credentialsError) := by
  have hbeq : (ttl == 0) = false := by
    simp only [beq_eq_false_iff_ne, ne_eq]
    exact httl
  have htok : create_access_token (some subject) (some ttl) now secretKey alg =
      .signed (some subject) (now + ttl) secretKey alg := by
    simp [create_access_token, hbeq]
  constructor
  · intro hlt
    rw [htok]
    unfold jwtDecode
    have hnotexp : ¬ (now + ttl < t) := not_lt.mpr (le_of_lt hlt)
    simp [hnotexp]
  · intro hgt
    have hdec : jwtDecode
        (create_access_token (some subject) (some ttl) now secretKey alg)
        secretKey alg t = .jwtError := by
      rw [htok]
      unfold jwtDecode
      simp [hgt]
    refine ⟨hdec, ?_⟩
    unfold get_current_user
    rw [hdec]

/-- Witness for C9 amended: with ttl 60 issued at time 0, validation at
time 30 returns the subject and validation at time 61 yields the 401
credentials failure. -/
theorem token_roundtrip_witness :
    jwtDecode (create_access_token (some "u@e.c") (some 60) 0 "k" "HS256")
      "k" "HS256" 30 = .payload (some "u@e.c") ∧
    get_current_user initialState "k" "HS256" 61
      (create_access_token (some "u@e.c") (some 60) 0 "k" "HS256") =
      .error credentialsError :=
  ⟨(token_roundtrip "u@e.c" "k" "HS256" initialState 60 0 30
      (by decide)).1 (by decide),
   ((token_roundtrip "u@e.c" "k" "HS256" initialState 60 0 61
      (by decide)).2 (by decide)).2⟩

/-- C10: the signup handler takes no authentication input at all (its Lean
model is a function of the request body alone, mirroring the absence of
any dependency on `POST /api/signup`), stores the body's `is_admin` flag
verbatim in the created user document, and a record created with
`is_admin = true` passes the administrative guard — so an unauthenticated
caller obtains an admin-capable account by setting one body field. -/
theorem signup_is_admin_verbatim (st : AppState) (u : UserCreate) :
    (create_user st u).2.users = st.users ++
      [{ id := st.nextId, username := u.username, email := u.email,
         password := get_password_hash u.password, phone := u.phone,
         is_admin := u.is_admin }] ∧
    (u.is_admin = true →
      is_admin_user
        { id := st.nextId, username := u.username, email := u.email,
          password := get_password_hash u.password, phone := u.phone,
          is_admin := u.is_admin } =
      .ok { id := st.nextId, username := u.username, email := u.email,
            password := get_password_hash u.password, phone := u.phone,
            is_admin := u.is_admin }) := by
  refine ⟨rfl, ?_⟩
  intro h
  simp [is_admin_user, h]

/-- Witness for C10: a concrete unauthenticated signup with
`is_admin = true` stores the flag and the stored record passes the admin
guard. -/
theorem signup_is_admin_verbatim_witness :
    is_admin_user
      { id := 0, username := "eve", email := "eve@example.com",
        password := get_password_hash "pw", phone := "0",
        is_admin := true } =
    .ok { id := 0, username := "eve", email := "eve@example.com",
          password := get_password_hash "pw", phone := "0",
          is_admin := true } :=
  (signup_is_admin_verbatim initialState
    { username := "eve", email := "eve@example.com", password := "pw",
      phone := "0", is_admin := true }).2 rfl
